import Mathlib

/-!
Verification of the plexus edge-telemetry agent core against its
natural-language specification.

The Python source is shallowly embedded: pure functions become Lean
functions, stateful handlers become explicit state-passing functions,
Python numbers are modelled as `ℤ`/`ℚ`, fallible paths return
`Except`/explicit outcome types.  Nondeterministic inputs (HTTP attempt
outcomes, process behaviour, the random jitter sample) are threaded in as
explicit parameters so that each code path is a total function of its
inputs.
-/

/-! ## Python value model

The agent passes around dynamically typed Python values (command
parameters, point values).  We model the fragment the core manipulates.
Note that in Python `bool` is a subclass of `int`, so `isinstance(True,
(int, float))` holds; the `is_number` / `is_int` predicates below encode
exactly the `isinstance` checks in `typed_commands.ParamDescriptor.validate`.
-/

/-- A Python number: either an `int` or a `float` (floats modelled as
rationals). -/
inductive PyNum where
  | int (n : ℤ)
  | float (q : ℚ)
deriving DecidableEq, Repr

/-- Numeric value of a Python number, for comparisons. -/
def PyNum.toRat : PyNum → ℚ
  | .int n => (n : ℚ)
  | .float q => q

/-- Python `int(x)` applied to a number: truncation toward zero. -/
def pyTrunc (q : ℚ) : ℤ := if q < 0 then ⌈q⌉ else ⌊q⌋

/-- Python `int()` conversion of a number. -/
def PyNum.pyToInt : PyNum → ℤ
  | .int n => n
  | .float q => pyTrunc q

/-- Python `str()` of a number as it appears in f-string error messages.
For ints this is the decimal digits; integral floats render with a
trailing `.0` as Python does. -/
def PyNum.pyStr : PyNum → String
  | .int n => toString n
  | .float q => if q.den = 1 then toString q.num ++ ".0" else toString q

/-- A dynamically typed Python value in the fragment the agent's typed
commands manipulate. -/
inductive PyVal where
  | int (n : ℤ)
  | float (q : ℚ)
  | str (s : String)
  | bool (b : Bool)
deriving DecidableEq, Repr

/-- Python `isinstance(value, (int, float))`.  `bool` is a subclass of
`int` in Python, so booleans count as numbers. -/
def PyVal.is_number : PyVal → Bool
  | .int _ => true
  | .float _ => true
  | .bool _ => true
  | .str _ => false

/-- Python `isinstance(value, int) and not isinstance(value, bool)`. -/
def PyVal.is_strict_int : PyVal → Bool
  | .int _ => true
  | _ => false

/-- Python `isinstance(value, str)`. -/
def PyVal.is_str : PyVal → Bool
  | .str _ => true
  | _ => false

/-- Python `isinstance(value, bool)`. -/
def PyVal.is_bool : PyVal → Bool
  | .bool _ => true
  | _ => false

/-- Numeric value used by Python comparisons (`True` compares as 1). -/
def PyVal.toRat : PyVal → ℚ
  | .int n => (n : ℚ)
  | .float q => q
  | .bool b => if b then 1 else 0
  | .str _ => 0

/-- Python `type(value).__name__`, used in validation error messages. -/
def PyVal.typeName : PyVal → String
  | .int _ => "int"
  | .float _ => "float"
  | .str _ => "str"
  | .bool _ => "bool"

/-- Python `str()` of a value as rendered inside an f-string. -/
def PyVal.pyStr : PyVal → String
  | .int n => toString n
  | .float q => PyNum.pyStr (.float q)
  | .str s => s
  | .bool b => if b then "True" else "False"

/-- Python `repr` of a list of strings, e.g. `['cw', 'ccw']`, as rendered
by an f-string for the enum error message. -/
def pyListRepr (xs : List String) : String :=
  "[" ++ String.intercalate ", " (xs.map (fun s => "\x27" ++ s ++ "\x27")) ++ "]"

/-! ## Buffer backends (src/plexus/buffer.py)

Both backends store points in FIFO order; we model the stored contents
as a Lean list in insertion order (for `SqliteBuffer` this is the rowid
order that `get_all` scans).  Points themselves are opaque (`α`).
-/

/-- `MemoryBuffer.add`: extend the list with the new points, then drop
the oldest entries if the buffer exceeds `max_size`. -/
def MemoryBuffer.add {α : Type} (max_size : Nat) (buffer points : List α) : List α :=
  let b := buffer ++ points
  if max_size < b.length then b.drop (b.length - max_size) else b

/-- `MemoryBuffer.get_all`: a copy of the buffer contents, in insertion
order. -/
def MemoryBuffer.get_all {α : Type} (buffer : List α) : List α := buffer

/-- `SqliteBuffer.add`: returns unchanged on an empty batch, otherwise
inserts all rows and evicts the rows with the oldest ids while the count
exceeds `max_size` (the `_evict` helper). -/
def SqliteBuffer.add {α : Type} (max_size : Nat) (buffer points : List α) : List α :=
  if points.isEmpty then buffer
  else
    let b := buffer ++ points
    if max_size < b.length then b.drop (b.length - max_size) else b

/-- `SqliteBuffer.get_all`: `SELECT data FROM points ORDER BY id`, i.e.
the rows in insertion order. -/
def SqliteBuffer.get_all {α : Type} (buffer : List α) : List α := buffer

/-! ## Retry policy (src/plexus/config.py RetryConfig) -/

/-- `RetryConfig` dataclass.  Delays are Python floats, modelled as `ℚ`. -/
structure RetryConfig where
  max_retries : Nat := 3
  base_delay : ℚ := 1
  max_delay : ℚ := 30
  exponential_base : ℚ := 2
  jitter : Bool := true
deriving Repr

/-- `RetryConfig.get_delay`: exponential backoff capped at `max_delay`,
optionally multiplied by `0.5 + random() * 0.5`.  The sample `r` of
`random.random()` (uniform in `[0, 1)`) is passed in explicitly. -/
def RetryConfig.get_delay (c : RetryConfig) (attempt : Nat) (r : ℚ) : ℚ :=
  let delay := c.base_delay * c.exponential_base ^ attempt
  let delay := min delay c.max_delay
  if c.jitter then delay * (1/2 + r * (1/2)) else delay

/-! ## Timestamp normalization (src/plexus/client.py) -/

/-- `Plexus._normalize_ts_ms`: `None` becomes the current time in ms
(passed in as `now_ms`); a positive value strictly below `1e12` is
treated as seconds and scaled by 1000; anything else is truncated to an
integer as-is. -/
def Plexus.normalize_ts_ms (now_ms : ℤ) : Option ℚ → ℤ
  | none => now_ms
  | some t => if 0 < t ∧ t < 10 ^ 12 then pyTrunc (t * 1000) else pyTrunc t

/-- A constructed point dictionary (the fields `Plexus._make_point`
produces).  The timestamp field is an integer by construction. -/
structure PointDict where
  metric : String
  value : PyVal
  timestamp : ℤ
  source_id : String
  tags : List (String × String) := []
  session_id : Option String := none
deriving DecidableEq, Repr

/-- `Plexus._make_point`: builds the point dictionary, normalizing the
timestamp via `_normalize_ts_ms`. -/
def Plexus.make_point (source_id : String) (session_id : Option String)
    (now_ms : ℤ) (metric : String) (value : PyVal) (timestamp : Option ℚ)
    (tags : List (String × String)) : PointDict :=
  { metric := metric
    value := value
    timestamp := Plexus.normalize_ts_ms now_ms timestamp
    source_id := source_id
    tags := tags
    session_id := session_id }

/-! ## Shell executor (src/plexus/commands.py)

`CommandExecutor.execute` streams `output` frames over the WebSocket.
We model a frame by its discriminating fields; the glob matcher
(`fnmatch.fnmatch`, Python standard library) is abstracted as a
parameter `fnmatch`, and the subprocess behaviour is passed in as an
explicit `ProcBehavior` value.
-/

/-- An `output` frame sent by the shell executor.  The `error`
constructor carries the optional `command` field: the policy-rejection
frame includes the command, the generic exception frame does not. -/
inductive OutFrame where
  | ack (id command : String)
  | start (id command : String)
  | data (id line : String)
  | exit (id : String) (code : ℤ)
  | timeout (id : String)
  | error (id : String) (command : Option String) (msg : String)
deriving DecidableEq, Repr

/-- Terminal events of a shell execution: `exit`, `timeout`, `error`. -/
def OutFrame.isTerminal : OutFrame → Bool
  | .exit _ _ => true
  | .timeout _ => true
  | .error _ _ _ => true
  | _ => false

/-- `CommandExecutor.is_command_allowed`: default-deny when the
allowlist is `None` or empty; otherwise the denylist is tested first
(raw and stripped command), then the allowlist. -/
def CommandExecutor.is_command_allowed (fnmatch : String → String → Bool)
    (allowlist : Option (List String)) (denylist : List String)
    (command : String) : Bool × String :=
  match allowlist with
  | none => (false, "Shell execution disabled (no allowlist configured)")
  | some al =>
    if al.isEmpty then (false, "Shell execution disabled (no allowlist configured)")
    else
      match denylist.find? (fun p => fnmatch command p || fnmatch command.trim p) with
      | some p => (false, "Command blocked by denylist: matches \x27" ++ p ++ "\x27")
      | none =>
        if al.any (fun p => fnmatch command p || fnmatch command.trim p) then (true, "")
        else (false, "Command not in allowlist")

/-- Behaviour of the spawned subprocess on a given run, as observed by
`CommandExecutor.execute`: the spawn itself may raise, the streaming may
hit the `asyncio.wait_for` timeout or raise, or the process exits with a
code.  `lines` are the stdout lines read before the outcome. -/
inductive ProcBehavior where
  | spawnError (msg : String)
  | timedOut (lines : List String)
  | errorDuring (lines : List String) (msg : String)
  | exits (lines : List String) (code : ℤ)
deriving DecidableEq, Repr

/-- The `data` frames streamed for the stdout lines.  If the running
flag is cleared the read loop breaks without sending. -/
def CommandExecutor.dataFrames (cmd_id : String) (running : Bool)
    (lines : List String) : List OutFrame :=
  if running then lines.map (OutFrame.data cmd_id) else []

/-- `CommandExecutor.execute`: the sequence of `output` frames sent for
one `execute` request, paired with whether a process was spawned.  An
empty command returns immediately; a policy rejection sends a single
`error` frame; otherwise `ack` and `start` are sent, stdout lines are
streamed, and exactly one of `exit`, `timeout` or `error` terminates the
run. -/
def CommandExecutor.execute (fnmatch : String → String → Bool)
    (allowlist : Option (List String)) (denylist : List String)
    (command cmd_id : String) (running : Bool) (proc : ProcBehavior) :
    List OutFrame × Bool :=
  if command = "" then ([], false)
  else
    let (allowed, reason) := CommandExecutor.is_command_allowed fnmatch allowlist denylist command
    if allowed then
      match proc with
      | .spawnError msg =>
        ([.ack cmd_id command, .start cmd_id command, .error cmd_id none msg], false)
      | .timedOut lines =>
        ([.ack cmd_id command, .start cmd_id command]
          ++ CommandExecutor.dataFrames cmd_id running lines ++ [.timeout cmd_id], true)
      | .errorDuring lines msg =>
        ([.ack cmd_id command, .start cmd_id command]
          ++ CommandExecutor.dataFrames cmd_id running lines ++ [.error cmd_id none msg], true)
      | .exits lines code =>
        ([.ack cmd_id command, .start cmd_id command]
          ++ CommandExecutor.dataFrames cmd_id running lines ++ [.exit cmd_id code], true)
    else
      ([.error cmd_id (some command) ("Command rejected: " ++ reason)], false)

/-! ## Typed commands (src/plexus/typed_commands.py) -/

/-- `ParamDescriptor` dataclass (the fields that affect validation and
dispatch; `description`, `unit` and `step` only affect the advertised
schema). -/
structure ParamDescriptor where
  name : String
  type : String := "float"
  min : Option PyNum := none
  max : Option PyNum := none
  default : Option PyVal := none
  required : Bool := true
  choices : Option (List String) := none

/-- Python `self.min is not None and value < self.min`. -/
def PyVal.belowMin (value : PyVal) (min : Option PyNum) : Bool :=
  match min with
  | some m => value.toRat < m.toRat
  | none => false

/-- Python `self.max is not None and value > self.max`. -/
def PyVal.aboveMax (value : PyVal) (max : Option PyNum) : Bool :=
  match max with
  | some m => m.toRat < value.toRat
  | none => false

/-- Python `value in choices` for the enum check (`==` against each
choice string; non-string values never equal a string). -/
def PyVal.inChoices (v : PyVal) (choices : List String) : Bool :=
  match v with
  | .str s => choices.contains s
  | _ => false

/-- `ParamDescriptor.validate`: type check, numeric bounds, enum
membership, following the `if/elif` chain of the source (unknown type
strings fall through and pass). -/
def ParamDescriptor.validate (d : ParamDescriptor) (value : PyVal) : Bool × String :=
  if d.type = "float" then
    if !value.is_number then
      (false, "Expected number for \x27" ++ d.name ++ "\x27, got " ++ value.typeName)
    else if value.belowMin d.min then
      (false, "\x27" ++ d.name ++ "\x27 must be >= " ++ (d.min.map PyNum.pyStr).getD "")
    else if value.aboveMax d.max then
      (false, "\x27" ++ d.name ++ "\x27 must be <= " ++ (d.max.map PyNum.pyStr).getD "")
    else (true, "")
  else if d.type = "int" then
    if !value.is_strict_int then
      (false, "Expected integer for \x27" ++ d.name ++ "\x27, got " ++ value.typeName)
    else if value.belowMin d.min then
      (false, "\x27" ++ d.name ++ "\x27 must be >= " ++ toString ((d.min.map PyNum.pyToInt).getD 0))
    else if value.aboveMax d.max then
      (false, "\x27" ++ d.name ++ "\x27 must be <= " ++ toString ((d.max.map PyNum.pyToInt).getD 0))
    else (true, "")
  else if d.type = "string" then
    if !value.is_str then
      (false, "Expected string for \x27" ++ d.name ++ "\x27, got " ++ value.typeName)
    else (true, "")
  else if d.type = "bool" then
    if !value.is_bool then
      (false, "Expected boolean for \x27" ++ d.name ++ "\x27, got " ++ value.typeName)
    else (true, "")
  else if d.type = "enum" then
    match d.choices with
    | some cs =>
      if !cs.isEmpty && !value.inChoices cs then
        (false, "\x27" ++ d.name ++ "\x27 must be one of " ++ pyListRepr cs
          ++ ", got \x27" ++ value.pyStr ++ "\x27")
      else (true, "")
    | none => (true, "")
  else (true, "")

/-- Return value of a typed-command handler before normalization:
Python `None`, a dict, or any other value. -/
inductive HandlerRet where
  | noneRet
  | dictRet (entries : List (String × PyVal))
  | valRet (v : PyVal)

/-- Normalization of a handler result in `CommandRegistry.execute`:
`None` becomes `{"status": "ok"}`, a dict is forwarded as-is, any other
value is wrapped as `{"value": v}`. -/
def normalize_result : HandlerRet → List (String × PyVal)
  | .noneRet => [("status", .str "ok")]
  | .dictRet d => d
  | .valRet v => [("value", v)]

/-- A `command_result` frame.  Validation and unknown-command errors
carry no `command` field; handler-exception errors do. -/
inductive CmdFrame where
  | error (id : String) (command : Option String) (msg : String)
  | ack (id : String) (command : String)
  | result (id : String) (command : String) (payload : List (String × PyVal))
deriving DecidableEq, Repr

/-- `CommandDescriptor`: name, handler and declared parameters.  The
handler is the registered Python callable, abstracted as a function
from keyword arguments to either an exception message or a return
value. -/
structure CommandDescriptor where
  name : String
  handler : List (String × PyVal) → Except String HandlerRet
  params : List ParamDescriptor := []

/-- The parameter-processing loop of `CommandRegistry.execute`: walk the
declared parameters in order; a supplied argument is validated (first
failure short-circuits with its message), an absent argument takes its
default if one is declared, and an absent required argument
short-circuits with the missing-parameter message. -/
def buildKwargs : List ParamDescriptor → List (String × PyVal) →
    Except String (List (String × PyVal))
  | [], _ => .ok []
  | d :: rest, args =>
    match args.lookup d.name with
    | some v =>
      let (valid, err) := d.validate v
      if valid then
        match buildKwargs rest args with
        | .ok ks => .ok ((d.name, v) :: ks)
        | .error e => .error e
      else .error err
    | none =>
      match d.default with
      | some dv =>
        match buildKwargs rest args with
        | .ok ks => .ok ((d.name, dv) :: ks)
        | .error e => .error e
      | none =>
        if d.required then .error ("Missing required parameter: " ++ d.name)
        else buildKwargs rest args

/-- `CommandRegistry.execute`: look up the command, validate parameters
(short-circuiting with a single `error` frame), send `ack`, invoke the
handler and send `result`, or convert a handler exception to an `error`
frame.  The second component records whether the handler was invoked. -/
def CommandRegistry.execute (cmds : List CommandDescriptor) (name : String)
    (params : List (String × PyVal)) (cmd_id : String) : List CmdFrame × Bool :=
  match cmds.find? (fun c => c.name == name) with
  | none => ([.error cmd_id none ("Unknown command: " ++ name)], false)
  | some cmd =>
    match buildKwargs cmd.params params with
    | .error err => ([.error cmd_id none err], false)
    | .ok kwargs =>
      match cmd.handler kwargs with
      | .ok r => ([.ack cmd_id name, .result cmd_id name (normalize_result r)], true)
      | .error e => ([.ack cmd_id name, .error cmd_id (some name) e], true)

/-! ## Ingest client send path (src/plexus/client.py Plexus._send_points)

The HTTP layer is nondeterministic; we pass in the outcome of each
attempt explicitly.  The outcomes list has one entry per loop iteration
of `range(max_retries + 1)`, so its length is `max_retries + 1`; the
loop breaks out of the retry path exactly when the list is down to its
last element (`attempt < max_retries` fails).
-/

/-- Outcome of one HTTP POST attempt as seen by `_send_points`: a
response with a status code and body text, a `requests` timeout, or a
connection error. -/
inductive AttemptResult where
  | status (code : Nat) (text : String)
  | timedOut
  | connError (msg : String)
deriving DecidableEq, Repr

/-- Errors surfaced by `_send_points`: `AuthenticationError` or
`PlexusError`, each with its message. -/
inductive SendErr where
  | auth (msg : String)
  | plexus (msg : String)
deriving DecidableEq, Repr

/-- Classification of one attempt by the `if/elif` chain of
`_send_points`, in source order: 401, 403, 400/422, 429, ≥500, <400
(success), other 4xx; plus the two `except` clauses.  `timeoutStr` is
the f-string rendering of `self.timeout`. -/
inductive AttemptClass where
  | success
  | raiseNow (e : SendErr)
  | retryable (e : SendErr)
deriving DecidableEq, Repr

/-- Classify one attempt outcome exactly as the source's branch order
does. -/
def classifyAttempt (timeoutStr : String) : AttemptResult → AttemptClass
  | .status c text =>
    if c = 401 then .raiseNow (.auth "Invalid API key")
    else if c = 403 then .raiseNow (.auth "API key doesn\x27t have write permissions")
    else if c = 400 ∨ c = 422 then
      .raiseNow (.plexus ("Bad request: " ++ toString c ++ " - " ++ text))
    else if c = 429 then .retryable (.plexus "Rate limited (429)")
    else if 500 ≤ c then
      .retryable (.plexus ("Server error: " ++ toString c ++ " - " ++ text))
    else if c < 400 then .success
    else .raiseNow (.plexus ("API error: " ++ toString c ++ " - " ++ text))
  | .timedOut => .retryable (.plexus ("Request timed out after " ++ timeoutStr ++ "s"))
  | .connError m => .retryable (.plexus ("Connection failed: " ++ m))

/-- Overall outcome of the retry loop: a successful post, an exception
raised from inside the loop (fail-fast statuses, buffer untouched), or
exhaustion of all attempts with the last retryable error. -/
inductive SendOutcome where
  | success
  | raised (e : SendErr)
  | exhausted (e : SendErr)
deriving DecidableEq, Repr

/-- The retry loop of `_send_points` over the per-attempt outcomes.  A
retryable error sleeps and continues while attempts remain (`rest ≠ []`)
and breaks with that error as `last_error` on the final attempt. -/
def sendLoop (timeoutStr : String) : List AttemptResult → SendOutcome
  | [] => .exhausted (.plexus "Send failed after all retries")
  | o :: rest =>
    match classifyAttempt timeoutStr o with
    | .success => .success
    | .raiseNow e => .raised e
    | .retryable e =>
      match rest with
      | [] => .exhausted e
      | _ :: _ => sendLoop timeoutStr rest

/-- Number of HTTP POSTs actually issued by the loop (every executed
iteration posts once before inspecting the outcome). -/
def numExecuted (timeoutStr : String) : List AttemptResult → Nat
  | [] => 0
  | o :: rest =>
    match classifyAttempt timeoutStr o with
    | .retryable _ =>
      match rest with
      | [] => 1
      | _ :: _ => 1 + numExecuted timeoutStr rest
    | _ => 1

/-- `Plexus._send_points`: prepend the buffered points to the batch,
run the retry loop, and on success clear the buffer, on an in-loop raise
leave the buffer untouched, on exhaustion add the *new* points to the
buffer and surface the last error.  Returns the call result, the final
buffer contents, and the list of posted request bodies. -/
def Plexus.send_points {α : Type} (cap : Nat) (timeoutStr : String)
    (api_key : Option String) (outcomes : List AttemptResult)
    (buffer points : List α) :
    Except SendErr Bool × List α × List (List α) :=
  match api_key with
  | none =>
    (.error (.auth "No API key configured. Run \x27plexus pair\x27 or set PLEXUS_API_KEY"),
      buffer, [])
  | some _ =>
    let all_points := MemoryBuffer.get_all buffer ++ points
    let posted := List.replicate (numExecuted timeoutStr outcomes) all_points
    match sendLoop timeoutStr outcomes with
    | .success => (.ok true, [], posted)
    | .raised e => (.error e, buffer, posted)
    | .exhausted e => (.error e, MemoryBuffer.add cap buffer points, posted)

/-! ## Stream manager stop semantics (src/plexus/streaming.py) -/

/-- The observable state of `StreamManager` touched by `stop_stream`:
the keys of `_active_streams`, the `_recording` flag, and the status
messages emitted so far. -/
structure StreamManagerState where
  active_streams : List String
  recording : Bool
  statuses : List String
deriving DecidableEq, Repr

/-- `StreamManager.stop_stream`: id `"*"` cancels everything, a known id
cancels exactly that stream, an unknown (or absent) id falls through;
in every case `_recording` is then set to `False`. -/
def StreamManager.stop_stream (st : StreamManagerState) (stream_id : Option String) :
    StreamManagerState :=
  let st' :=
    match stream_id with
    | some i =>
      if i = "*" then
        { st with active_streams := [], statuses := st.statuses ++ ["Stopped all streams"] }
      else if i ∈ st.active_streams then
        { st with active_streams := st.active_streams.erase i,
                  statuses := st.statuses ++ ["Stopped stream"] }
      else st
    | none => st
  { st' with recording := false }

/-! ## Connector reconnect delay (src/plexus/connector.py) -/

/-- The sleep (in seconds) `PlexusConnector.connect` performs before a
reconnect attempt: both `except` branches report "Reconnecting in 5s..."
and `await asyncio.sleep(5)`, regardless of which attempt this is or how
long the previous connection had been active.  The unused parameters
record the claim's inputs (attempt number and the seconds the just-closed
connection was active). -/
def PlexusConnector.reconnectDelay (_attempt : Nat) (_prevActiveSeconds : ℚ) : ℚ := 5

/-! ## Claims -/

/-- C6: after `add(P)` on a buffer with capacity C holding N entries,
the size is `min(N + |P|, C)`, the retained entries are the C most
recent of the N + |P| inserted entries in insertion order (the suffix of
`B ++ P`), the durable backend agrees with the in-memory one, and
snapshot returns the retained entries in insertion order. -/
theorem c6_buffer_add_semantics {α : Type} (C : Nat) (B P : List α)
    (h : B.length ≤ C) :
    (MemoryBuffer.add C B P).length = min (B.length + P.length) C ∧
    MemoryBuffer.add C B P = (B ++ P).drop (B.length + P.length - C) ∧
    SqliteBuffer.add C B P = MemoryBuffer.add C B P ∧
    MemoryBuffer.get_all (MemoryBuffer.add C B P) = MemoryBuffer.add C B P := by
  refine ⟨?_, ?_, ?_, rfl⟩
  · simp only [MemoryBuffer.add]
    split_ifs with h1
    · rw [List.length_drop, List.length_append] at *
      omega
    · rw [List.length_append] at *
      omega
  · simp only [MemoryBuffer.add]
    split_ifs with h1
    · rw [List.length_append]
    · have h0 : B.length + P.length - C = 0 := by
        rw [List.length_append] at h1
        omega
      rw [h0, List.drop_zero]
  · rcases P with _ | ⟨p, ps⟩
    · simp only [SqliteBuffer.add, List.isEmpty_nil, if_true, MemoryBuffer.add,
        List.append_nil]
      rw [if_neg (by omega)]
    · simp only [SqliteBuffer.add, List.isEmpty_cons, MemoryBuffer.add, Bool.false_eq_true,
        if_false]

/-- Witness for C6 at capacity 3, two pre-existing entries, two new
points: one entry is evicted and the three most recent remain. -/
theorem c6_buffer_add_semantics_witness :
    ([1, 2] : List ℕ).length ≤ 3 ∧
    ((MemoryBuffer.add 3 [1, 2] [3, 4]).length = min ([1, 2].length + [3, 4].length) 3 ∧
     MemoryBuffer.add 3 [1, 2] [3, 4] = ([1, 2] ++ [3, 4]).drop ([1, 2].length + [3, 4].length - 3) ∧
     SqliteBuffer.add 3 [1, 2] [3, 4] = MemoryBuffer.add 3 [1, 2] [3, 4] ∧
     MemoryBuffer.get_all (MemoryBuffer.add 3 [1, 2] [3, 4]) = MemoryBuffer.add 3 ([1, 2] : List ℕ) [3, 4]) :=
  ⟨by decide, c6_buffer_add_semantics 3 [1, 2] [3, 4] (by decide)⟩

/-- C8: for an attempt n below `max_retries`, the delay is
`min(base_delay · baseⁿ, max_delay)` with jitter off, and with jitter on
it is that value times `0.5 + r/2` for the uniform sample `r ∈ [0, 1)`,
hence lies in `[0.5·m, m)` for `m := min(base_delay · baseⁿ, max_delay)`. -/
theorem c8_retry_delay (c : RetryConfig) (n : Nat) (r : ℚ)
    (_hn : n < c.max_retries) (hb : 0 < c.base_delay)
    (he : 0 < c.exponential_base) (hm : 0 < c.max_delay)
    (hr0 : 0 ≤ r) (hr1 : r < 1) :
    (c.jitter = false →
      c.get_delay n r = min (c.base_delay * c.exponential_base ^ n) c.max_delay) ∧
    (c.jitter = true →
      1/2 * min (c.base_delay * c.exponential_base ^ n) c.max_delay ≤ c.get_delay n r ∧
      c.get_delay n r < min (c.base_delay * c.exponential_base ^ n) c.max_delay) := by
  have hd : 0 < min (c.base_delay * c.exponential_base ^ n) c.max_delay :=
    lt_min (mul_pos hb (pow_pos he n)) hm
  constructor
  · intro hj
    simp [RetryConfig.get_delay, hj]
  · intro hj
    simp only [RetryConfig.get_delay, hj, if_true]
    set m := min (c.base_delay * c.exponential_base ^ n) c.max_delay with hm'
    constructor
    · nlinarith [mul_nonneg (le_of_lt hd) hr0]
    · nlinarith [mul_pos hd (show (0:ℚ) < 1 - r by linarith)]

/-- The default `RetryConfig()` (jitter on). -/
def defaultRetryConfig : RetryConfig := {}

/-- Witness for C8 at the default config, attempt 0, jitter sample 0:
the delay is in `[0.5, 1)` of the uncapped base delay. -/
theorem c8_retry_delay_witness :
    (0 < defaultRetryConfig.max_retries ∧ (0:ℚ) < defaultRetryConfig.base_delay ∧
      (0:ℚ) < defaultRetryConfig.exponential_base ∧ (0:ℚ) < defaultRetryConfig.max_delay ∧
      (0:ℚ) ≤ 0 ∧ (0:ℚ) < 1) ∧
    ((defaultRetryConfig.jitter = false →
      defaultRetryConfig.get_delay 0 0
        = min (defaultRetryConfig.base_delay * defaultRetryConfig.exponential_base ^ 0)
            defaultRetryConfig.max_delay) ∧
     (defaultRetryConfig.jitter = true →
      1/2 * min (defaultRetryConfig.base_delay * defaultRetryConfig.exponential_base ^ 0)
          defaultRetryConfig.max_delay ≤ defaultRetryConfig.get_delay 0 0 ∧
      defaultRetryConfig.get_delay 0 0
        < min (defaultRetryConfig.base_delay * defaultRetryConfig.exponential_base ^ 0)
            defaultRetryConfig.max_delay)) :=
  ⟨⟨by decide, by norm_num [defaultRetryConfig], by norm_num [defaultRetryConfig],
      by norm_num [defaultRetryConfig], by norm_num, by norm_num⟩,
    c8_retry_delay defaultRetryConfig 0 0 (by decide)
      (by norm_num [defaultRetryConfig]) (by norm_num [defaultRetryConfig])
      (by norm_num [defaultRetryConfig]) (by norm_num) (by norm_num)⟩

/-- C4 counterexample: a timestamp of exactly 10¹² is NOT multiplied by
1000 — the source's heuristic is strict (`timestamp < 1e12`), so 10¹² is
kept as milliseconds, contradicting the claim's "every value t ≤ 10¹² is
interpreted as seconds". -/
theorem c4_counterexample :
    Plexus.normalize_ts_ms 0 (some (10 ^ 12)) = 10 ^ 12 ∧
    (10 ^ 12 : ℤ) ≠ 10 ^ 12 * 1000 := by
  constructor
  · norm_num [Plexus.normalize_ts_ms, pyTrunc]
  · norm_num

/-- C4 amended: every stored timestamp is an integer number of
milliseconds; a value strictly between 0 and 10¹² (exclusive) is
interpreted as seconds and multiplied by 1000; values ≥ 10¹² and values
≤ 0 are kept as-is, truncated toward zero; and `_make_point` stores
exactly the normalized value. -/
theorem c4_timestamp_normalization (now_ms : ℤ) (t : ℚ) :
    (0 < t → t < 10 ^ 12 → Plexus.normalize_ts_ms now_ms (some t) = pyTrunc (t * 1000)) ∧
    (10 ^ 12 ≤ t → Plexus.normalize_ts_ms now_ms (some t) = pyTrunc t) ∧
    (t ≤ 0 → Plexus.normalize_ts_ms now_ms (some t) = pyTrunc t) ∧
    (∀ source_id session_id metric value tags,
      (Plexus.make_point source_id session_id now_ms metric value (some t) tags).timestamp
        = Plexus.normalize_ts_ms now_ms (some t)) := by
  refine ⟨?_, ?_, ?_, fun _ _ _ _ _ => rfl⟩
  · intro h1 h2
    simp only [Plexus.normalize_ts_ms]
    rw [if_pos ⟨h1, h2⟩]
  · intro h
    simp only [Plexus.normalize_ts_ms]
    rw [if_neg]
    rintro ⟨-, h2⟩
    linarith
  · intro h
    simp only [Plexus.normalize_ts_ms]
    rw [if_neg]
    rintro ⟨h1, -⟩
    linarith

/-- Witness for C4 at t = 5 seconds: normalized to 5000 ms. -/
theorem c4_timestamp_normalization_witness :
    ((0:ℚ) < 5 ∧ (5:ℚ) < 10 ^ 12) ∧
    Plexus.normalize_ts_ms 0 (some 5) = pyTrunc (5 * 1000) :=
  ⟨⟨by norm_num, by norm_num⟩,
    (c4_timestamp_normalization 0 5).1 (by norm_num) (by norm_num)⟩

/-- C1 counterexample: the connector's reconnect sleep is the constant
5 seconds; after a long Active period (here 60 s) the claim requires the
next sleep to be at most 1.25 s (reset to 1 s times maximal jitter), but
the code sleeps 5 s. -/
theorem c1_counterexample :
    PlexusConnector.reconnectDelay 1 60 = 5 ∧
    ¬ PlexusConnector.reconnectDelay 1 60 ≤ 5/4 := by
  constructor
  · rfl
  · norm_num [PlexusConnector.reconnectDelay]

/-- C1 amended: the sleep before every reconnect attempt is a fixed
5 seconds, independent of the attempt number and of how long the
previous connection was Active; there is no exponential backoff, no
jitter, and no reset rule. -/
theorem c1_fixed_reconnect_delay (n : Nat) (d : ℚ) :
    PlexusConnector.reconnectDelay n d = 5 := rfl

/-- C9 counterexample: stopping an unknown stream id is not a complete
no-op — with a stream active and recording on, `stop_stream` with an
unknown id leaves the streams alone but clears the `_recording` flag,
changing the manager's state. -/
theorem c9_counterexample :
    StreamManager.stop_stream ⟨["s1"], true, []⟩ (some "s2")
      ≠ (⟨["s1"], true, []⟩ : StreamManagerState) := by
  decide

/-- C9 amended: a `stop_stream` whose id is neither `"*"` nor an active
stream id leaves the set of active streams unchanged and emits no status
or error, but unconditionally clears the recording flag. -/
theorem c9_stop_unknown_id (st : StreamManagerState) (i : String)
    (hne : i ≠ "*") (hmem : i ∉ st.active_streams) :
    StreamManager.stop_stream st (some i) = { st with recording := false } := by
  simp [StreamManager.stop_stream, hne, hmem]

/-- Witness for C9's amended statement on a concrete state. -/
theorem c9_stop_unknown_id_witness :
    ("s2" ≠ "*" ∧ "s2" ∉ (⟨["s1"], true, ["a"]⟩ : StreamManagerState).active_streams) ∧
    StreamManager.stop_stream ⟨["s1"], true, ["a"]⟩ (some "s2")
      = { (⟨["s1"], true, ["a"]⟩ : StreamManagerState) with recording := false } :=
  ⟨⟨by decide, by decide⟩, c9_stop_unknown_id ⟨["s1"], true, ["a"]⟩ "s2" (by decide) (by decide)⟩

/-- C2 counterexample: an empty command string submitted with no
allowlist configured produces no output frame at all (the executor
returns before the policy check), not the single rejection frame the
claim requires for every command string. -/
theorem c2_counterexample :
    (CommandExecutor.execute (fun _ _ => false) none [] "" "x1" true (.exits [] 0)).1 = [] ∧
    ([] : List OutFrame) ≠ [.error "x1" (some "")
      "Command rejected: Shell execution disabled (no allowlist configured)"] := by
  constructor
  · rfl
  · decide

/-- C2 amended: for every NON-EMPTY command string, a missing or empty
allowlist yields exactly one `output` frame with event `error` and error
text "Command rejected: Shell execution disabled (no allowlist
configured)" and no spawned process; and with an allowlist configured, a
command matching any denylist pattern is refused (denylist is tested
before the allowlist).  An empty command string is ignored: no frame, no
process. -/
theorem c2_shell_policy (fnmatch : String → String → Bool)
    (denylist : List String) (command cmd_id : String) (running : Bool)
    (proc : ProcBehavior) (hc : command ≠ "") :
    (∀ allowlist, allowlist = none ∨ allowlist = some [] →
      CommandExecutor.execute fnmatch allowlist denylist command cmd_id running proc
        = ([.error cmd_id (some command)
            "Command rejected: Shell execution disabled (no allowlist configured)"], false)) ∧
    (∀ al p, al ≠ [] → p ∈ denylist →
      (fnmatch command p = true ∨ fnmatch command.trim p = true) →
      (CommandExecutor.is_command_allowed fnmatch (some al) denylist command).1 = false) := by
  constructor
  · rintro allowlist (rfl | rfl)
    · simp [CommandExecutor.execute, CommandExecutor.is_command_allowed, hc]
    · simp [CommandExecutor.execute, CommandExecutor.is_command_allowed, hc]
  · intro al p hal hp hm
    have hsome : (denylist.find? (fun q => fnmatch command q || fnmatch command.trim q)).isSome := by
      rw [List.find?_isSome]
      refine ⟨p, hp, ?_⟩
      rcases hm with h | h <;> simp [h]
    obtain ⟨q, hq⟩ := Option.isSome_iff_exists.mp hsome
    cases al with
    | nil => exact absurd rfl hal
    | cons a as => simp [CommandExecutor.is_command_allowed, hq]

/-- Witness for C2's amended statement: `ls` with no allowlist is
rejected with the exact frame, and `ls` on the denylist is refused even
though it is also on the allowlist. -/
theorem c2_shell_policy_witness :
    ("ls" ≠ "") ∧
    CommandExecutor.execute (fun c p => c == p) none ["ls"] "ls" "x1" true (.exits [] 0)
      = ([.error "x1" (some "ls")
          "Command rejected: Shell execution disabled (no allowlist configured)"], false) ∧
    (CommandExecutor.is_command_allowed (fun c p => c == p) (some ["ls"]) ["ls"] "ls").1 = false :=
  ⟨by decide,
    (c2_shell_policy (fun c p => c == p) ["ls"] "ls" "x1" true (.exits [] 0) (by decide)).1
      none (Or.inl rfl),
    (c2_shell_policy (fun c p => c == p) ["ls"] "ls" "x1" true (.exits [] 0) (by decide)).2
      ["ls"] "ls" (by decide) (by decide) (Or.inl (by decide))⟩

/-- The streamed data frames contain no terminal event. -/
theorem dataFrames_countP_terminal (cmd_id : String) (running : Bool)
    (lines : List String) :
    (CommandExecutor.dataFrames cmd_id running lines).countP
      (fun f => OutFrame.isTerminal f) = 0 := by
  cases running with
  | false => simp [CommandExecutor.dataFrames]
  | true =>
    simp only [CommandExecutor.dataFrames, if_pos]
    rw [List.countP_eq_zero]
    intro f hf
    obtain ⟨l, -, rfl⟩ := List.mem_map.mp hf
    simp [OutFrame.isTerminal]

/-- Every streamed frame is a `data` frame. -/
theorem dataFrames_mem (cmd_id : String) (running : Bool) (lines : List String) :
    ∀ f ∈ CommandExecutor.dataFrames cmd_id running lines, ∃ l, f = OutFrame.data cmd_id l := by
  cases running with
  | false => simp [CommandExecutor.dataFrames]
  | true =>
    intro f hf
    simp only [CommandExecutor.dataFrames, if_pos] at hf
    obtain ⟨l, -, rfl⟩ := List.mem_map.mp hf
    exact ⟨l, rfl⟩

/-- C5: every shell execution that passes the policy check emits `ack`,
then `start`, then only `data` frames, then exactly one terminal event
among `exit`, `timeout`, `error` — and the whole frame sequence contains
exactly one terminal event, with `start` (after `ack`) preceding it. -/
theorem c5_terminal_event (fnmatch : String → String → Bool)
    (allowlist : Option (List String)) (denylist : List String)
    (command cmd_id : String) (running : Bool) (proc : ProcBehavior)
    (hc : command ≠ "")
    (hall : (CommandExecutor.is_command_allowed fnmatch allowlist denylist command).1 = true) :
    ∃ mid t,
      (CommandExecutor.execute fnmatch allowlist denylist command cmd_id running proc).1
        = OutFrame.ack cmd_id command :: OutFrame.start cmd_id command :: (mid ++ [t]) ∧
      (∀ f ∈ mid, ∃ l, f = OutFrame.data cmd_id l) ∧
      t.isTerminal = true ∧
      (CommandExecutor.execute fnmatch allowlist denylist command cmd_id running proc).1.countP
        (fun f => OutFrame.isTerminal f) = 1 := by
  rcases hica : CommandExecutor.is_command_allowed fnmatch allowlist denylist command
    with ⟨allowed, reason⟩
  rw [hica] at hall
  simp only at hall
  subst hall
  cases proc with
  | spawnError msg =>
    refine ⟨[], .error cmd_id none msg, ?_, by simp, rfl, ?_⟩
    · simp [CommandExecutor.execute, hc, hica]
    · have hfr : (CommandExecutor.execute fnmatch allowlist denylist command cmd_id running
          (.spawnError msg)).1
          = [OutFrame.ack cmd_id command, OutFrame.start cmd_id command,
             OutFrame.error cmd_id none msg] := by
        simp [CommandExecutor.execute, hc, hica]
      rw [hfr, List.countP_cons, List.countP_cons, List.countP_cons, List.countP_nil]
      simp [OutFrame.isTerminal]
  | timedOut lines =>
    refine ⟨CommandExecutor.dataFrames cmd_id running lines, .timeout cmd_id, ?_,
      dataFrames_mem cmd_id running lines, rfl, ?_⟩
    · simp [CommandExecutor.execute, hc, hica]
    · have hfr : (CommandExecutor.execute fnmatch allowlist denylist command cmd_id running
          (.timedOut lines)).1
          = OutFrame.ack cmd_id command :: OutFrame.start cmd_id command ::
            (CommandExecutor.dataFrames cmd_id running lines ++ [OutFrame.timeout cmd_id]) := by
        simp [CommandExecutor.execute, hc, hica]
      rw [hfr, List.countP_cons, List.countP_cons, List.countP_append,
        dataFrames_countP_terminal, List.countP_cons, List.countP_nil]
      simp [OutFrame.isTerminal]
  | errorDuring lines msg =>
    refine ⟨CommandExecutor.dataFrames cmd_id running lines, .error cmd_id none msg, ?_,
      dataFrames_mem cmd_id running lines, rfl, ?_⟩
    · simp [CommandExecutor.execute, hc, hica]
    · have hfr : (CommandExecutor.execute fnmatch allowlist denylist command cmd_id running
          (.errorDuring lines msg)).1
          = OutFrame.ack cmd_id command :: OutFrame.start cmd_id command ::
            (CommandExecutor.dataFrames cmd_id running lines ++ [OutFrame.error cmd_id none msg]) := by
        simp [CommandExecutor.execute, hc, hica]
      rw [hfr, List.countP_cons, List.countP_cons, List.countP_append,
        dataFrames_countP_terminal, List.countP_cons, List.countP_nil]
      simp [OutFrame.isTerminal]
  | exits lines code =>
    refine ⟨CommandExecutor.dataFrames cmd_id running lines, .exit cmd_id code, ?_,
      dataFrames_mem cmd_id running lines, rfl, ?_⟩
    · simp [CommandExecutor.execute, hc, hica]
    · have hfr : (CommandExecutor.execute fnmatch allowlist denylist command cmd_id running
          (.exits lines code)).1
          = OutFrame.ack cmd_id command :: OutFrame.start cmd_id command ::
            (CommandExecutor.dataFrames cmd_id running lines ++ [OutFrame.exit cmd_id code]) := by
        simp [CommandExecutor.execute, hc, hica]
      rw [hfr, List.countP_cons, List.countP_cons, List.countP_append,
        dataFrames_countP_terminal, List.countP_cons, List.countP_nil]
      simp [OutFrame.isTerminal]

/-- Witness for C5: an allowed `ls` run that exits with code 0 emits
`ack`, `start`, one data line and exactly one terminal `exit` event. -/
theorem c5_terminal_event_witness :
    ("ls" ≠ "" ∧
      (CommandExecutor.is_command_allowed (fun c p => c == p) (some ["ls"]) [] "ls").1 = true) ∧
    (∃ mid t,
      (CommandExecutor.execute (fun c p => c == p) (some ["ls"]) [] "ls" "x1" true
        (.exits ["hello"] 0)).1
        = OutFrame.ack "x1" "ls" :: OutFrame.start "x1" "ls" :: (mid ++ [t]) ∧
      (∀ f ∈ mid, ∃ l, f = OutFrame.data "x1" l) ∧
      t.isTerminal = true ∧
      (CommandExecutor.execute (fun c p => c == p) (some ["ls"]) [] "ls" "x1" true
        (.exits ["hello"] 0)).1.countP (fun f => OutFrame.isTerminal f) = 1) :=
  ⟨⟨by decide, by decide⟩,
    c5_terminal_event (fun c p => c == p) (some ["ls"]) [] "ls" "x1" true
      (.exits ["hello"] 0) (by decide) (by decide)⟩

/-- C7: a typed-command invocation whose arguments fail validation
short-circuits at the first violating parameter in declaration order:
exactly one `command_result` frame with event `error` and that
parameter's structured message is sent, no `ack` frame is sent and the
handler is never invoked; a supplied value that fails its descriptor
check is the first failure when it heads the declaration list; and a
numeric value lying within the declared bounds inclusive (in particular
exactly at min or at max) is accepted. -/
theorem c7_validation_short_circuit :
    (∀ (cmds : List CommandDescriptor) (name : String)
        (params : List (String × PyVal)) (cmd_id : String)
        (cmd : CommandDescriptor) (err : String),
      cmds.find? (fun c => c.name == name) = some cmd →
      buildKwargs cmd.params params = .error err →
      CommandRegistry.execute cmds name params cmd_id
        = ([.error cmd_id none err], false)) ∧
    (∀ (d : ParamDescriptor) (rest : List ParamDescriptor)
        (args : List (String × PyVal)) (v : PyVal) (err : String),
      args.lookup d.name = some v →
      d.validate v = (false, err) →
      buildKwargs (d :: rest) args = .error err) ∧
    (∀ (d : ParamDescriptor) (v : PyVal),
      d.type = "float" → v.is_number = true →
      (∀ m, d.min = some m → m.toRat ≤ v.toRat) →
      (∀ m, d.max = some m → v.toRat ≤ m.toRat) →
      d.validate v = (true, "")) := by
  refine ⟨?_, ?_, ?_⟩
  · intro cmds name params cmd_id cmd err hfind hkw
    simp [CommandRegistry.execute, hfind, hkw]
  · intro d rest args v err hlook hval
    simp [buildKwargs, hlook, hval]
  · intro d v ht hv hmin hmax
    have hb : v.belowMin d.min = false := by
      cases hm : d.min with
      | none => rfl
      | some m => simp [PyVal.belowMin, not_lt.mpr (hmin m hm)]
    have ha : v.aboveMax d.max = false := by
      cases hm : d.max with
      | none => rfl
      | some m => simp [PyVal.aboveMax, not_lt.mpr (hmax m hm)]
    simp [ParamDescriptor.validate, ht, hv, hb, ha]

/-- The spec's example registration: `set_speed(rpm: float, min=0,
max=10000)` with a handler returning `None`. -/
def setSpeedCmd : CommandDescriptor :=
  { name := "set_speed"
    handler := fun _ => .ok .noneRet
    params := [{ name := "rpm", type := "float", min := some (.int 0), max := some (.int 10000) }] }

/-- Witness for C7 on the spec's scenario: `set_speed` with rpm 12000
yields exactly one error frame with message `'rpm' must be <= 10000`,
no ack, and no handler invocation. -/
theorem c7_validation_short_circuit_witness :
    ([setSpeedCmd].find? (fun c => c.name == "set_speed") = some setSpeedCmd ∧
      buildKwargs setSpeedCmd.params [("rpm", .float 12000)]
        = .error "\x27rpm\x27 must be <= 10000") ∧
    CommandRegistry.execute [setSpeedCmd] "set_speed" [("rpm", .float 12000)] "c1"
      = ([.error "c1" none "\x27rpm\x27 must be <= 10000"], false) :=
  ⟨⟨rfl, rfl⟩,
    c7_validation_short_circuit.1 [setSpeedCmd] "set_speed" [("rpm", .float 12000)] "c1"
      setSpeedCmd "\x27rpm\x27 must be <= 10000" rfl rfl⟩

/-- If every attempt before some attempt is retryable and that attempt
succeeds, the retry loop reports success. -/
theorem sendLoop_success (ts : String) (pre : List AttemptResult)
    (o : AttemptResult) (post : List AttemptResult)
    (hpre : ∀ x ∈ pre, ∃ e, classifyAttempt ts x = .retryable e)
    (ho : classifyAttempt ts o = .success) :
    sendLoop ts (pre ++ o :: post) = .success := by
  induction pre with
  | nil => simp [sendLoop, ho]
  | cons x pre ih =>
    obtain ⟨e, hx⟩ := hpre x (by simp)
    have hrest : ∀ y ∈ pre, ∃ e, classifyAttempt ts y = .retryable e :=
      fun y hy => hpre y (by simp [hy])
    simp only [List.cons_append, sendLoop, hx]
    split
    · next heq =>
      have h2 : pre ++ o :: post = [] := heq
      simp at h2
    · exact ih hrest

/-- If every attempt is retryable, the retry loop exhausts and keeps the
last attempt's error as `last_error`. -/
theorem sendLoop_exhausted (ts : String) (init : List AttemptResult)
    (last : AttemptResult) (e : SendErr)
    (hall : ∀ x ∈ init, ∃ e, classifyAttempt ts x = .retryable e)
    (hl : classifyAttempt ts last = .retryable e) :
    sendLoop ts (init ++ [last]) = .exhausted e := by
  induction init with
  | nil => simp [sendLoop, hl]
  | cons x init ih =>
    obtain ⟨e', hx⟩ := hall x (by simp)
    have hrest : ∀ y ∈ init, ∃ e, classifyAttempt ts y = .retryable e :=
      fun y hy => hall y (by simp [hy])
    simp only [List.cons_append, sendLoop, hx]
    split
    · next heq =>
      have h2 : init ++ [last] = [] := heq
      simp at h2
    · exact ih hrest

/-- C3: every posted batch is the buffered points prepended to the new
points, in that order; if the loop reaches a successful attempt (status
< 400) the call returns `True` and the buffer is cleared; and if every
attempt fails with a retryable error, exactly the new points are
appended to the buffer (the prepended buffered ones stay where they
were) and the last attempt's error is raised. -/
theorem c3_send_points {α : Type} (cap : Nat) (ts key : String)
    (outcomes : List AttemptResult) (B P : List α) :
    ((Plexus.send_points cap ts (some key) outcomes B P).2.2
        = List.replicate (numExecuted ts outcomes) (B ++ P)) ∧
    (∀ pre o post, outcomes = pre ++ o :: post →
      (∀ x ∈ pre, ∃ e, classifyAttempt ts x = .retryable e) →
      classifyAttempt ts o = .success →
      (Plexus.send_points cap ts (some key) outcomes B P).1 = .ok true ∧
      (Plexus.send_points cap ts (some key) outcomes B P).2.1 = []) ∧
    (∀ init last e, outcomes = init ++ [last] →
      (∀ x ∈ outcomes, ∃ e, classifyAttempt ts x = .retryable e) →
      classifyAttempt ts last = .retryable e →
      B.length + P.length ≤ cap →
      (Plexus.send_points cap ts (some key) outcomes B P).1 = .error e ∧
      (Plexus.send_points cap ts (some key) outcomes B P).2.1 = B ++ P) := by
  refine ⟨?_, ?_, ?_⟩
  · simp only [Plexus.send_points]
    cases hs : sendLoop ts outcomes <;> simp [hs, MemoryBuffer.get_all]
  · intro pre o post houtc hpre ho
    subst houtc
    have hs := sendLoop_success ts pre o post hpre ho
    simp [Plexus.send_points, hs]
  · intro init last e houtc hall hl hcap
    subst houtc
    have hs := sendLoop_exhausted ts init last e
      (fun x hx => hall x (by simp [hx])) hl
    have hbuf : MemoryBuffer.add cap B P = B ++ P := by
      simp only [MemoryBuffer.add]
      rw [if_neg]
      rw [List.length_append]
      omega
    simp [Plexus.send_points, hs, hbuf, MemoryBuffer.get_all]

/-- Witness for C3's exhaustion branch: two timeouts with
`max_retries = 1` buffer exactly the new point behind the already
buffered one and surface the timeout error. -/
theorem c3_send_points_witness :
    (([AttemptResult.timedOut, AttemptResult.timedOut] : List AttemptResult)
        = [AttemptResult.timedOut] ++ [AttemptResult.timedOut] ∧
      classifyAttempt "10.0" .timedOut
        = .retryable (.plexus "Request timed out after 10.0s") ∧
      ([1] : List ℕ).length + ([2] : List ℕ).length ≤ 10) ∧
    (Plexus.send_points 10 "10.0" (some "k")
        [AttemptResult.timedOut, AttemptResult.timedOut] [1] [2]).1
      = .error (.plexus "Request timed out after 10.0s") ∧
    (Plexus.send_points 10 "10.0" (some "k")
        [AttemptResult.timedOut, AttemptResult.timedOut] ([1] : List ℕ) [2]).2.1
      = [1] ++ [2] :=
  ⟨⟨rfl, rfl, by decide⟩,
    (c3_send_points 10 "10.0" "k" [AttemptResult.timedOut, AttemptResult.timedOut] [1] [2]).2.2
      [AttemptResult.timedOut] .timedOut (.plexus "Request timed out after 10.0s") rfl
      (by intro x hx; fin_cases hx <;> exact ⟨_, rfl⟩) rfl (by decide)⟩

/-- C10: when the first attempt returns a fail-fast status (400, 401,
403 or 422), `_send_points` raises immediately: exactly one batch (the
buffered points followed by the new ones) was posted, the buffer is left
exactly as before the call — the new points are not appended and the
buffered ones are neither cleared nor re-sent by this call. -/
theorem c10_fail_fast_buffer {α : Type} (cap : Nat) (ts key text : String)
    (c : Nat) (rest : List AttemptResult) (B P : List α)
    (hc : c = 400 ∨ c = 401 ∨ c = 403 ∨ c = 422) :
    (∃ e, (Plexus.send_points cap ts (some key) (.status c text :: rest) B P).1
      = .error e) ∧
    (Plexus.send_points cap ts (some key) (.status c text :: rest) B P).2.1 = B ∧
    (Plexus.send_points cap ts (some key) (.status c text :: rest) B P).2.2 = [B ++ P] := by
  have hcls : ∃ e, classifyAttempt ts (.status c text) = .raiseNow e := by
    rcases hc with rfl | rfl | rfl | rfl
    · refine ⟨.plexus ("Bad request: " ++ toString 400 ++ " - " ++ text), ?_⟩
      norm_num [classifyAttempt]
    · refine ⟨.auth "Invalid API key", ?_⟩
      norm_num [classifyAttempt]
    · refine ⟨.auth "API key doesn\x27t have write permissions", ?_⟩
      norm_num [classifyAttempt]
    · refine ⟨.plexus ("Bad request: " ++ toString 422 ++ " - " ++ text), ?_⟩
      norm_num [classifyAttempt]
  obtain ⟨e, he⟩ := hcls
  have hs : sendLoop ts (.status c text :: rest) = .raised e := by
    cases rest with
    | nil => simp [sendLoop, he]
    | cons z zs => simp [sendLoop, he]
  have hn : numExecuted ts (.status c text :: rest) = 1 := by
    cases rest with
    | nil => simp [numExecuted, he]
    | cons z zs => simp [numExecuted, he]
  refine ⟨⟨e, ?_⟩, ?_, ?_⟩ <;>
    simp [Plexus.send_points, hs, hn, MemoryBuffer.get_all]

/-- Witness for C10: a 401 on the first attempt raises the
authentication error, leaves the single buffered point in place, and
posted the combined batch exactly once. -/
theorem c10_fail_fast_buffer_witness :
    ((401 = 400 ∨ 401 = 401 ∨ 401 = 403 ∨ 401 = 422) : Prop) ∧
    ((∃ e, (Plexus.send_points 10 "10.0" (some "k")
        [.status 401 ""] ([1] : List ℕ) [2]).1 = .error e) ∧
      (Plexus.send_points 10 "10.0" (some "k") [.status 401 ""] ([1] : List ℕ) [2]).2.1 = [1] ∧
      (Plexus.send_points 10 "10.0" (some "k") [.status 401 ""] ([1] : List ℕ) [2]).2.2
        = [[1] ++ [2]]) :=
  ⟨Or.inr (Or.inl rfl),
    c10_fail_fast_buffer 10 "10.0" "k" "" 401 [] [1] [2] (Or.inr (Or.inl rfl))⟩
